import Mathlib

/-!
# HerSphere backend — analytics & streak core, shallow embedding

This file embeds the algorithmic core of the HerSphere backend
(`services/analyticsService.js` and `services/streakService.js`) as executable
Lean definitions and proves/refutes the specification claims about it.

Modelling conventions:
* JavaScript numbers are modelled as `ℚ` (all the arithmetic involved is exact
  on the inputs considered); rounded quantities are `ℤ`.
* `Math.round x` is `⌊x + 1/2⌋` (JS rounds half towards +∞).
* Calendar dates are modelled as integer day numbers; a difference of day
  numbers is exactly the `Math.floor((a - b) / 86400000)` computed by the code
  on midnight-normalised dates.
* Database state reached through `pool.query` is passed explicitly: rows that a
  query would return are arguments, and mutations are explicit state-passing.
* A query that can fail is an `Except String` value; a JS `try/catch` is a
  `match` on it.
-/

namespace HerSphere

/-- JS `Math.round`: round half towards positive infinity, i.e. `⌊q + 1/2⌋`.
(Stated via `Rat.floor` so that concrete instances evaluate by `decide`.) -/
def jsRound (q : ℚ) : ℤ := (q + 1/2).floor

theorem jsRound_eq_floor (q : ℚ) : jsRound q = ⌊q + 1/2⌋ := by
  rw [jsRound, Rat.floor_def', ← Rat.floor_def]

theorem jsRound_eq_of {q : ℚ} {z : ℤ} (h1 : (z : ℚ) ≤ q + 1/2) (h2 : q + 1/2 < z + 1) :
    jsRound q = z := by
  rw [jsRound_eq_floor]
  exact Int.floor_eq_iff.mpr ⟨h1, by exact_mod_cast h2⟩

theorem jsRound_intCast (z : ℤ) : jsRound (z : ℚ) = z := by
  refine jsRound_eq_of (by norm_num) (by norm_num)

theorem jsRound_nonneg {q : ℚ} (h : 0 ≤ q) : 0 ≤ jsRound q := by
  rw [jsRound_eq_floor]
  positivity

/-- Average of a list of values, as JS `reduce((s,v) => s+v, 0) / length`.
(Callers below only ever apply it to non-empty lists, matching the source.) -/
def avgOf (l : List ℚ) : ℚ := l.sum / l.length

/-! ## TrendAnalyzer (`calculateTrend`, analyticsService.js lines 1114-1138) -/

inductive Trend where
  | increasing
  | decreasing
  | stable
  | insufficientData
deriving DecidableEq, Repr

structure TrendResult where
  trend : Trend
  percentage : ℤ
deriving DecidableEq, Repr

/-- `calculateTrend(values)`: first-half vs second-half percentage change.
Direct translation of the source: split at `Math.floor(length / 2)`, guard the
division with `firstHalfAvg > 0`, classify at the ±10 thresholds. -/
def calculateTrend (values : List ℚ) : TrendResult :=
  if values.length < 2 then
    { trend := .insufficientData, percentage := 0 }
  else
    let midPoint := values.length / 2
    let firstHalf := values.take midPoint
    let secondHalf := values.drop midPoint
    let firstHalfAvg := firstHalf.sum / (firstHalf.length : ℚ)
    let secondHalfAvg := secondHalf.sum / (secondHalf.length : ℚ)
    let percentageChange : ℤ :=
      if 0 < firstHalfAvg then
        jsRound ((secondHalfAvg - firstHalfAvg) / firstHalfAvg * 100)
      else 0
    let trend : Trend :=
      if 10 < percentageChange then .increasing
      else if percentageChange < -10 then .decreasing
      else .stable
    { trend := trend, percentage := percentageChange }

/-- Classification of a percentage change, as the spec words it:
`> 10 → increasing`, `< -10 → decreasing`, else `stable`. -/
def classifyTrend (pct : ℤ) : Trend :=
  if 10 < pct then .increasing
  else if pct < -10 then .decreasing
  else .stable

/-- The trend computation exactly as the SPEC words it (claim C1): the
percentage is `round(((avg(secondHalf) - avg(firstHalf)) / avg(firstHalf)) * 100)`,
"or 0 if `avg(firstHalf) == 0`". -/
def trendSpecLiteral (values : List ℚ) : TrendResult :=
  if values.length < 2 then
    { trend := .insufficientData, percentage := 0 }
  else
    let firstHalf := values.take (values.length / 2)
    let secondHalf := values.drop (values.length / 2)
    let pct : ℤ :=
      if avgOf firstHalf = 0 then 0
      else jsRound ((avgOf secondHalf - avgOf firstHalf) / avgOf firstHalf * 100)
    { trend := classifyTrend pct, percentage := pct }

/-- The trend computation as claim C1 must be amended: the percentage is 0
whenever `avg(firstHalf)` is NOT POSITIVE (not merely when it is zero). -/
def trendSpecAmended (values : List ℚ) : TrendResult :=
  if values.length < 2 then
    { trend := .insufficientData, percentage := 0 }
  else
    let firstHalf := values.take (values.length / 2)
    let secondHalf := values.drop (values.length / 2)
    let pct : ℤ :=
      if 0 < avgOf firstHalf then
        jsRound ((avgOf secondHalf - avgOf firstHalf) / avgOf firstHalf * 100)
      else 0
    { trend := classifyTrend pct, percentage := pct }

/-- C1 counterexample: on `[-1, 1]` the first-half average is `-1`, which is
nonzero, so the claimed formula gives `round(-200) = -200` (a decreasing
trend), but the code's `firstHalfAvg > 0` guard yields `0` (stable). -/
theorem calculateTrend_ne_specLiteral_at_neg :
    calculateTrend [-1, 1] ≠ trendSpecLiteral [-1, 1] ∧
    calculateTrend [-1, 1] = { trend := .stable, percentage := 0 } ∧
    trendSpecLiteral [-1, 1] = { trend := .decreasing, percentage := -200 } := by
  have hcode : calculateTrend [-1, 1] = { trend := .stable, percentage := 0 } := by
    norm_num [calculateTrend]
  have hjs : jsRound (-200 : ℚ) = -200 := jsRound_eq_of (by norm_num) (by norm_num)
  have hpct : ((1 : ℚ) - -1) / (-1) * 100 = (-200 : ℚ) := by norm_num
  have hspec : trendSpecLiteral [-1, 1] = { trend := .decreasing, percentage := -200 } := by
    norm_num [trendSpecLiteral, avgOf, classifyTrend, hpct, hjs]
  refine ⟨?_, hcode, hspec⟩
  rw [hcode, hspec]
  simp

/-- C1 (amended): `calculateTrend` returns `insufficient_data`/0 on lists of
fewer than two values, and otherwise the first-half/second-half percentage
change — zeroed whenever the first-half average is not positive — classified
at the ±10 thresholds. -/
theorem calculateTrend_eq_specAmended (values : List ℚ) :
    calculateTrend values = trendSpecAmended values := by
  unfold calculateTrend trendSpecAmended classifyTrend avgOf
  rfl

/-! ## GoalTracker streak walk (`calculateGoalStreak`, analyticsService.js lines 880-930) -/

/-- Daily metric point `{date, value}` as returned by `getDailyMetricValues`
(rows ordered ascending by date; the date is an integer day number). -/
structure DailyValue where
  date : ℤ
  value : ℚ
deriving DecidableEq, Repr

structure GoalStreakResult where
  currentStreak : ℕ
  longestStreak : ℕ
  lastAchievedDate : Option ℤ
deriving DecidableEq, Repr

/-- Loop state of the `for (let i = dailyValues.length - 1; i >= 0; i--)` walk. -/
structure GoalStreakState where
  currentStreak : ℕ
  longestStreak : ℕ
  tempStreak : ℕ
  lastAchievedDate : Option ℤ
deriving DecidableEq, Repr

/-- One iteration of the walk at index `i` (body of the `for` loop). -/
def goalStreakStep (target : ℚ) (dailyValues : List DailyValue)
    (st : GoalStreakState) (i : ℕ) : GoalStreakState :=
  match dailyValues[i]? with
  | none => st
  | some dv =>
    if target ≤ dv.value then
      let tempStreak := st.tempStreak + 1
      { st with
        tempStreak := tempStreak
        currentStreak := if i = dailyValues.length - 1 then tempStreak else st.currentStreak
        lastAchievedDate :=
          if st.lastAchievedDate = none then some dv.date else st.lastAchievedDate }
    else
      { st with
        longestStreak :=
          if st.longestStreak < st.tempStreak then st.tempStreak else st.longestStreak
        currentStreak := if i = dailyValues.length - 1 then 0 else st.currentStreak
        tempStreak := 0 }

/-- The streak walk of `calculateGoalStreak`: iterate indices from
`length - 1` down to `0`, then flush the final `tempStreak > longestStreak`. -/
def calculateGoalStreakWalk (target : ℚ) (dailyValues : List DailyValue) : GoalStreakResult :=
  let final := ((List.range dailyValues.length).reverse).foldl
    (goalStreakStep target dailyValues) ⟨0, 0, 0, none⟩
  { currentStreak := final.currentStreak
    longestStreak :=
      if final.longestStreak < final.tempStreak then final.tempStreak else final.longestStreak
    lastAchievedDate := final.lastAchievedDate }

/-- `calculateGoalStreak(userId, metric, type)`: the goal query modelled as an
optional target (no matching goal row → all-zero result). -/
def calculateGoalStreak (goalTarget : Option ℚ) (dailyValues : List DailyValue) :
    GoalStreakResult :=
  match goalTarget with
  | none => { currentStreak := 0, longestStreak := 0, lastAchievedDate := none }
  | some target => calculateGoalStreakWalk target dailyValues

/-- C2: on daily values `[1800, 1800, 2100, 2200]` (dates 1..4, ascending) with
target 2000 the code returns `currentStreak = 1`, not the trailing-run length 2
claimed by the spec: the `currentStreak = tempStreak` assignment is guarded by
`i === dailyValues.length - 1`, which holds only on the first loop iteration,
when `tempStreak` has just become 1. `longestStreak = 2` as claimed. -/
theorem calculateGoalStreak_currentStreak_capped_at_one :
    calculateGoalStreak (some 2000)
        [⟨1, 1800⟩, ⟨2, 1800⟩, ⟨3, 2100⟩, ⟨4, 2200⟩] =
      { currentStreak := 1, longestStreak := 2, lastAchievedDate := some 4 } ∧
    (calculateGoalStreak (some 2000)
        [⟨1, 1800⟩, ⟨2, 1800⟩, ⟨3, 2100⟩, ⟨4, 2200⟩]).currentStreak ≠ 2 := by
  have h : calculateGoalStreak (some 2000)
      [⟨1, 1800⟩, ⟨2, 1800⟩, ⟨3, 2100⟩, ⟨4, 2200⟩] =
      { currentStreak := 1, longestStreak := 2, lastAchievedDate := some 4 } := by
    norm_num [calculateGoalStreak, calculateGoalStreakWalk, goalStreakStep,
      List.range_succ]
    simp
  exact ⟨h, by rw [h]; simp⟩

/-! ## Goal achievement checking (`checkGoalAchievements`, lines 826-857,
and `recordGoalAchievement`, lines 865-871) -/

inductive GoalStatus where
  | active
  | completed
  | paused
deriving DecidableEq, Repr

structure Goal where
  id : ℕ
  metric : String
  type : String
  target : ℚ
  status : GoalStatus
deriving DecidableEq, Repr

/-- Persisted `goal_achievements` row. -/
structure GoalAchievement where
  goalId : ℕ
  achievedValue : ℚ
  achievedAt : ℤ
deriving DecidableEq, Repr

/-- Entry pushed onto the returned `achievedGoals` array
(`{...goal, achievedValue, achievedAt}`). -/
structure AchievedGoal where
  goal : Goal
  achievedValue : ℚ
  achievedAt : ℤ
deriving DecidableEq, Repr

/-- The goal tables for one user. -/
structure GoalsDB where
  goals : List Goal
  achievements : List GoalAchievement
deriving Repr

/-- The `UPDATE user_goals SET status = 'completed' WHERE id = $2` write. -/
def markGoalCompleted (goals : List Goal) (goalId : ℕ) : List Goal :=
  goals.map fun g => if g.id = goalId then { g with status := .completed } else g

/-- Body of the `for (const goal of activeGoals.rows)` loop of
`checkGoalAchievements`: recompute the current value; if `currentValue >=
target`, mark the goal completed, record the achievement (uncapped value), and
push the enriched goal. -/
def achieveStep (cv : String → String → ℚ) (now : ℤ)
    (acc : GoalsDB × List AchievedGoal) (goal : Goal) : GoalsDB × List AchievedGoal :=
  let currentValue := cv goal.metric goal.type
  if goal.target ≤ currentValue then
    ({ goals := markGoalCompleted acc.1.goals goal.id
       achievements := acc.1.achievements ++ [⟨goal.id, currentValue, now⟩] },
     acc.2 ++ [⟨goal, currentValue, now⟩])
  else acc

/-- `checkGoalAchievements(userId)`: scan the snapshot of `active` goals and
run the loop. `cv metric type` models `getCurrentMetricValue` over the (fixed)
store; the returned pair is (database after the writes, `achievedGoals`). -/
def checkGoalAchievements (cv : String → String → ℚ) (now : ℤ) (db : GoalsDB) :
    GoalsDB × List AchievedGoal :=
  (db.goals.filter (fun g => g.status = .active)).foldl (achieveStep cv now) (db, [])

/-- Net per-goal effect of one scan over the snapshot `l`: a goal ends up
completed iff some snapshot entry fired and shares its id. -/
def markIfAchieved (cv : String → String → ℚ) (l : List Goal) (g : Goal) : Goal :=
  if l.any (fun a => decide (a.target ≤ cv a.metric a.type) && a.id == g.id) then
    { g with status := .completed }
  else g

theorem markIfAchieved_cons_fire {cv : String → String → ℚ} {l : List Goal} {a : Goal}
    (ha : a.target ≤ cv a.metric a.type) (g : Goal) :
    markIfAchieved cv l (if g.id = a.id then { g with status := .completed } else g) =
      markIfAchieved cv (a :: l) g := by
  by_cases hid : g.id = a.id
  · rw [if_pos hid]
    have hr : markIfAchieved cv (a :: l) g = { g with status := .completed } := by
      rw [markIfAchieved, if_pos]
      simp [ha, hid]
    rw [hr, markIfAchieved]
    split <;> rfl
  · rw [if_neg hid, markIfAchieved, markIfAchieved]
    have : (a.id == g.id) = false := by
      simp [Ne.symm hid]
    simp [this]

theorem markIfAchieved_cons_nofire {cv : String → String → ℚ} {l : List Goal} {a : Goal}
    (ha : ¬ a.target ≤ cv a.metric a.type) (g : Goal) :
    markIfAchieved cv l g = markIfAchieved cv (a :: l) g := by
  rw [markIfAchieved, markIfAchieved]
  simp [ha]

theorem achieve_foldl_goals (cv : String → String → ℚ) (now : ℤ) :
    ∀ (l : List Goal) (db : GoalsDB) (acc : List AchievedGoal),
      ((l.foldl (achieveStep cv now) (db, acc)).1).goals =
        db.goals.map (markIfAchieved cv l) := by
  intro l
  induction l with
  | nil =>
    intro db acc
    have h : ∀ g : Goal, markIfAchieved cv [] g = g := fun g => by simp [markIfAchieved]
    simp only [List.foldl_nil]
    rw [show markIfAchieved cv [] = id from funext h, List.map_id]
  | cons a l ih =>
    intro db acc
    rw [List.foldl_cons]
    by_cases ha : a.target ≤ cv a.metric a.type
    · rw [achieveStep, if_pos ha, ih, markGoalCompleted, List.map_map]
      exact List.map_congr_left (fun g _ => markIfAchieved_cons_fire ha g)
    · rw [achieveStep, if_neg ha, ih]
      exact List.map_congr_left (fun g _ => markIfAchieved_cons_nofire ha g)

theorem achieve_foldl_no_new (cv : String → String → ℚ) (now : ℤ) :
    ∀ (l : List Goal) (db : GoalsDB) (acc : List AchievedGoal),
      (∀ a ∈ l, ¬ a.target ≤ cv a.metric a.type) →
      (l.foldl (achieveStep cv now) (db, acc)).2 = acc := by
  intro l
  induction l with
  | nil => intro db acc _; rfl
  | cons a l ih =>
    intro db acc hl
    rw [List.foldl_cons, achieveStep, if_neg (hl a (List.mem_cons_self a l))]
    exact ih db acc (fun b hb => hl b (List.mem_cons_of_mem a hb))

/-- C3: `checkGoalAchievements` is idempotent per goal — with no new data (the
same `cv`), an immediately repeated call returns an empty achieved-goals list,
because only `status = active` goals are scanned and every active goal whose
value reached its target was transitioned out of `active` by the first call. -/
theorem checkGoalAchievements_idempotent (cv : String → String → ℚ) (now now' : ℤ)
    (db : GoalsDB) :
    (checkGoalAchievements cv now' (checkGoalAchievements cv now db).1).2 = [] := by
  have hgoals : (checkGoalAchievements cv now db).1.goals =
      db.goals.map (markIfAchieved cv (db.goals.filter (fun g => g.status = .active))) :=
    achieve_foldl_goals cv now _ db []
  rw [checkGoalAchievements]
  apply achieve_foldl_no_new
  intro a ha
  have hmem := List.mem_filter.mp ha
  have hact : a.status = .active := by simpa using hmem.2
  have hag := hmem.1
  rw [hgoals] at hag
  obtain ⟨g, hg, hEq⟩ := List.mem_map.mp hag
  by_cases hany : ((db.goals.filter (fun g => g.status = .active)).any
      (fun b => decide (b.target ≤ cv b.metric b.type) && b.id == g.id)) = true
  · rw [markIfAchieved, if_pos hany] at hEq
    rw [← hEq] at hact
    simp at hact
  · rw [markIfAchieved, if_neg hany] at hEq
    subst hEq
    intro hfire
    apply hany
    refine List.any_eq_true.mpr ⟨g, List.mem_filter.mpr ⟨hg, by simp [hact]⟩, ?_⟩
    simp [hfire]

/-! ## Goal progress (`calculateDetailedGoalProgress`, lines 682-708, and
`calculateGoalProgress`, lines 1222-1243) -/

structure DetailedGoalProgress where
  currentValue : ℚ
  progress : ℤ
  progressStatus : String
  trend : Trend
  trendPercentage : ℤ
  daysSinceCreation : ℕ
deriving DecidableEq, Repr

/-- Pure core of `calculateDetailedGoalProgress(userId, goal)`: `currentValue`
is the `getCurrentMetricValue` result, `trendData` the `getGoalTrend` result,
`daysSinceCreation` the computed day difference. Status is classified from the
UNCAPPED percentage; the stored `progress` is capped by `Math.min(progress, 100)`. -/
def calculateDetailedGoalProgress (currentValue : ℚ) (target : ℚ)
    (trendData : TrendResult) (daysSinceCreation : ℕ) : DetailedGoalProgress :=
  let progress : ℤ := if 0 < target then jsRound (currentValue / target * 100) else 0
  let progressStatus :=
    if 100 ≤ progress then "achieved"
    else if 80 ≤ progress then "on_track"
    else if 50 ≤ progress then "behind"
    else "needs_attention"
  { currentValue := currentValue
    progress := min progress 100
    progressStatus := progressStatus
    trend := trendData.trend
    trendPercentage := trendData.percentage
    daysSinceCreation := daysSinceCreation }

structure GoalProgress where
  goalId : ℕ
  target : ℚ
  current : ℚ
  progress : ℤ
  status : String
deriving DecidableEq, Repr

/-- `calculateGoalProgress(userId, metric, currentValue)`: the
most-recently-created active goal query is modelled as an optional
`(goalId, target)` row; no row → `null`. -/
def calculateGoalProgress (goalRow : Option (ℕ × ℚ)) (currentValue : ℚ) :
    Option GoalProgress :=
  match goalRow with
  | none => none
  | some (goalId, target) =>
    let progress : ℤ := if 0 < target then jsRound (currentValue / target * 100) else 0
    some { goalId := goalId
           target := target
           current := currentValue
           progress := min progress 100
           status :=
             if 100 ≤ progress then "achieved"
             else if 80 ≤ progress then "on_track"
             else if 50 ≤ progress then "behind"
             else "needs_attention" }

/-- The spec's threshold table over the uncapped percentage:
`>= 100 → achieved`, `>= 80 → on_track`, `>= 50 → behind`, else
`needs_attention` (claim C4, spec section 3 GoalProgress). -/
def progressStatusOf (p : ℤ) : String :=
  if 100 ≤ p then "achieved"
  else if 80 ≤ p then "on_track"
  else if 50 ≤ p then "behind"
  else "needs_attention"

/-- C4: for a positive target and nonnegative current metric value, both
derived progress values are capped into `[0, 100]`, while `progressStatus` is
classified from the uncapped percentage `round(currentValue / target * 100)`. -/
theorem goalProgress_capped_and_status_uncapped (currentValue target : ℚ)
    (td : TrendResult) (days goalId : ℕ)
    (ht : 0 < target) (hcv : 0 ≤ currentValue) :
    (0 ≤ (calculateDetailedGoalProgress currentValue target td days).progress ∧
      (calculateDetailedGoalProgress currentValue target td days).progress ≤ 100) ∧
    (calculateDetailedGoalProgress currentValue target td days).progressStatus =
      progressStatusOf (jsRound (currentValue / target * 100)) ∧
    calculateGoalProgress (some (goalId, target)) currentValue =
      some { goalId := goalId
             target := target
             current := currentValue
             progress := min (jsRound (currentValue / target * 100)) 100
             status := progressStatusOf (jsRound (currentValue / target * 100)) } ∧
    0 ≤ min (jsRound (currentValue / target * 100)) 100 := by
  have hnn : 0 ≤ jsRound (currentValue / target * 100) :=
    jsRound_nonneg (by positivity)
  refine ⟨⟨?_, ?_⟩, ?_, ?_, ?_⟩
  · simp only [calculateDetailedGoalProgress, if_pos ht]
    exact le_min hnn (by norm_num)
  · simp only [calculateDetailedGoalProgress, if_pos ht]
    exact min_le_right _ _
  · simp only [calculateDetailedGoalProgress, progressStatusOf, if_pos ht]
  · simp only [calculateGoalProgress, progressStatusOf, if_pos ht]
  · exact le_min hnn (by norm_num)

/-- Witness for C4 at `currentValue = 150`, `target = 100` (an over-achieved
goal: uncapped percentage 150, display progress capped at 100). -/
theorem goalProgress_capped_and_status_uncapped_witness :
    (0 ≤ (calculateDetailedGoalProgress 150 100 ⟨.stable, 0⟩ 3).progress ∧
      (calculateDetailedGoalProgress 150 100 ⟨.stable, 0⟩ 3).progress ≤ 100) ∧
    (calculateDetailedGoalProgress 150 100 ⟨.stable, 0⟩ 3).progressStatus =
      progressStatusOf (jsRound ((150 : ℚ) / 100 * 100)) ∧
    calculateGoalProgress (some (7, 100)) 150 =
      some { goalId := 7
             target := 100
             current := 150
             progress := min (jsRound ((150 : ℚ) / 100 * 100)) 100
             status := progressStatusOf (jsRound ((150 : ℚ) / 100 * 100)) } ∧
    0 ≤ min (jsRound ((150 : ℚ) / 100 * 100)) 100 :=
  goalProgress_capped_and_status_uncapped 150 100 ⟨.stable, 0⟩ 3 7
    (by norm_num) (by norm_num)

/-! ## ConsistencyAnalyzer (`calculateStudyConsistencyPatterns`, lines 1735-1808) -/

structure ConsistencyPatterns where
  totalStreaks : ℕ
  averageStreakLength : ℤ
  totalGaps : ℕ
  longestGap : ℤ
deriving DecidableEq, Repr

/-- Result record; the source returns `patterns: []` (an empty array instead
of the stats object) on the empty-series early return, modelled as `none`. -/
structure ConsistencyResult where
  totalDays : ℕ
  studyDays : ℕ
  consistencyRate : ℤ
  longestStreak : ℕ
  currentStreak : ℕ
  averageGapBetweenSessions : ℤ
  patterns : Option ConsistencyPatterns
deriving DecidableEq, Repr

/-- State of the `for (let i = 1; i < studyDays.length; i++)` loop. -/
structure ConsistencyLoopState where
  prev : ℤ
  currentStreak : ℕ
  longestStreak : ℕ
  streaks : List ℕ
  gaps : List ℤ
deriving DecidableEq, Repr

/-- One loop iteration: day-to-day delta 1 extends the running streak,
anything else closes it, records the gap `daysDiff - 1`, and restarts at 1. -/
def consistencyStep (st : ConsistencyLoopState) (curr : ℤ) : ConsistencyLoopState :=
  let daysDiff := curr - st.prev
  if daysDiff = 1 then
    { st with prev := curr, currentStreak := st.currentStreak + 1 }
  else
    { prev := curr
      currentStreak := 1
      longestStreak := max st.longestStreak st.currentStreak
      streaks := st.streaks ++ [st.currentStreak]
      gaps := st.gaps ++ [daysDiff - 1] }

/-- `calculateStudyConsistencyPatterns(userId, startDate)` over the queried,
ascending study dates (integer day numbers), the window length `totalDays`,
and `today`. Empty series short-circuits to the all-zero record. -/
def calculateStudyConsistencyPatterns (studyDates : List ℤ) (totalDays : ℕ)
    (today : ℤ) : ConsistencyResult :=
  match studyDates with
  | [] =>
    { totalDays := totalDays
      studyDays := 0
      consistencyRate := 0
      longestStreak := 0
      currentStreak := 0
      averageGapBetweenSessions := 0
      patterns := none }
  | d0 :: rest =>
    let final := rest.foldl consistencyStep ⟨d0, 1, 1, [], []⟩
    let streaks := final.streaks ++ [final.currentStreak]
    let longestStreak := max final.longestStreak final.currentStreak
    let gaps := final.gaps
    let daysSinceLastStudy := today - final.prev
    let currentActiveStreak := if daysSinceLastStudy ≤ 1 then final.currentStreak else 0
    let averageGap : ℤ :=
      if 0 < gaps.length then jsRound ((gaps.sum : ℚ) / gaps.length) else 0
    { totalDays := totalDays
      studyDays := studyDates.length
      consistencyRate := jsRound ((studyDates.length : ℚ) / totalDays * 100)
      longestStreak := longestStreak
      currentStreak := currentActiveStreak
      averageGapBetweenSessions := averageGap
      patterns := some
        { totalStreaks := streaks.length
          averageStreakLength :=
            if 0 < streaks.length then jsRound ((streaks.sum : ℚ) / streaks.length) else 0
          totalGaps := gaps.length
          longestGap := (gaps.max?).getD 0 } }

/-- C5: over the sorted dates `[1, 2, 3, 5, 6]` (one missing day) with a
6-day window, the code reports `longestStreak = 3`, exactly one gap of size 1
(`totalGaps = 1`, `longestGap = 1`), `averageGapBetweenSessions = 1`, and
`patterns.totalStreaks = 2`; an empty series yields the all-zero record
(with the degenerate `patterns` array) for every window. -/
theorem studyConsistency_gap_example_and_empty :
    calculateStudyConsistencyPatterns [1, 2, 3, 5, 6] 6 6 =
      { totalDays := 6
        studyDays := 5
        consistencyRate := 83
        longestStreak := 3
        currentStreak := 2
        averageGapBetweenSessions := 1
        patterns := some
          { totalStreaks := 2
            averageStreakLength := 3
            totalGaps := 1
            longestGap := 1 } } ∧
    ∀ (totalDays : ℕ) (today : ℤ),
      calculateStudyConsistencyPatterns [] totalDays today =
        { totalDays := totalDays
          studyDays := 0
          consistencyRate := 0
          longestStreak := 0
          currentStreak := 0
          averageGapBetweenSessions := 0
          patterns := none } := by
  constructor
  · have h83 : jsRound ((5 : ℚ) / 6 * 100) = 83 := jsRound_eq_of (by norm_num) (by norm_num)
    have h1 : jsRound ((1 : ℚ) / 1) = 1 := jsRound_eq_of (by norm_num) (by norm_num)
    have h25 : jsRound ((5 : ℚ) / 2) = 3 := jsRound_eq_of (by norm_num) (by norm_num)
    norm_num [calculateStudyConsistencyPatterns, consistencyStep, List.max?, h83, h1, h25]
    exact ⟨jsRound_eq_of (by norm_num) (by norm_num), jsRound_eq_of (by norm_num) (by norm_num)⟩
  · intro totalDays today
    rfl

/-! ## streakService.js (`updateUserStreak` lines 11-107, `getUserStreak`
lines 115-149, `resetUserStreak` lines 157-175)

The `user_streaks` row for one `(user, activityType)` key is an
`Option StreakRow` (`none` = no row yet); dates are integer day numbers, so
`Math.floor((activityDate - lastActivityDate) / 86400000)` on
midnight-normalised dates is plain subtraction. -/

structure StreakRow where
  currentStreak : ℕ
  longestStreak : ℕ
  lastActivityDate : Option ℤ
deriving DecidableEq, Repr

/-- The `data` object returned by the streak service. -/
structure StreakData where
  currentStreak : ℕ
  longestStreak : ℕ
  lastActivityDate : Option ℤ
deriving DecidableEq, Repr

/-- State transition + returned data of `updateUserStreak` (the body of its
`try` block): read the row (defaults 0/0/null), branch on `completed` and the
day difference, and write back (UPDATE or INSERT; the not-completed branch
writes only when a gap was detected and a row exists). -/
def updateUserStreakState (row : Option StreakRow) (date : ℤ) (completed : Bool) :
    Option StreakRow × StreakData :=
  let currentStreak0 : ℕ := match row with | some s => s.currentStreak | none => 0
  let longestStreak0 : ℕ := match row with | some s => s.longestStreak | none => 0
  let lastActivityDate : Option ℤ := match row with | some s => s.lastActivityDate | none => none
  if completed then
    let currentStreak : ℕ :=
      match lastActivityDate with
      | some last =>
        let daysDiff := date - last
        if daysDiff = 1 then currentStreak0 + 1
        else if daysDiff = 0 then currentStreak0
        else 1
      | none => 1
    let longestStreak :=
      if longestStreak0 < currentStreak then currentStreak else longestStreak0
    (some { currentStreak := currentStreak
            longestStreak := longestStreak
            lastActivityDate := some date },
     { currentStreak := currentStreak
       longestStreak := longestStreak
       lastActivityDate := some date })
  else
    match lastActivityDate with
    | some last =>
      if 1 < date - last then
        ((match row with
          | some s => some { s with currentStreak := 0 }
          | none => none),
         { currentStreak := 0
           longestStreak := longestStreak0
           lastActivityDate := some date })
      else
        (row, { currentStreak := currentStreak0
                longestStreak := longestStreak0
                lastActivityDate := some date })
    | none =>
      (row, { currentStreak := currentStreak0
              longestStreak := longestStreak0
              lastActivityDate := some date })

/-- State transition of `resetUserStreak`: `UPDATE ... SET current_streak = 0`
touches only an existing row's `current_streak`. -/
def resetUserStreakState (row : Option StreakRow) : Option StreakRow :=
  match row with
  | some s => some { s with currentStreak := 0 }
  | none => none

/-- The streak-mutating operations of streakService.js. -/
inductive StreakOp where
  | update (date : ℤ) (completed : Bool)
  | reset
deriving DecidableEq, Repr

def applyStreakOp (row : Option StreakRow) : StreakOp → Option StreakRow
  | .update date completed => (updateUserStreakState row date completed).1
  | .reset => resetUserStreakState row

/-- The persisted `longest_streak` (0 while no row exists). -/
def longestOf (row : Option StreakRow) : ℕ :=
  match row with
  | some s => s.longestStreak
  | none => 0

theorem nat_le_ite_max (a b : ℕ) : a ≤ (if b < a then a else b) := by
  split <;> omega

theorem applyStreakOp_longest_le (row : Option StreakRow) (op : StreakOp) :
    longestOf row ≤ longestOf (applyStreakOp row op) := by
  cases op with
  | reset => cases row <;> simp [applyStreakOp, resetUserStreakState, longestOf]
  | update date completed =>
    cases row with
    | none => cases completed <;> simp [applyStreakOp, updateUserStreakState, longestOf]
    | some s =>
      cases completed with
      | true =>
        simp only [applyStreakOp, updateUserStreakState, if_true, longestOf]
        split <;> omega
      | false =>
        simp only [applyStreakOp, updateUserStreakState, Bool.false_eq_true, if_false]
        cases hl : s.lastActivityDate with
        | none => simp [longestOf]
        | some last =>
          by_cases hgap : 1 < date - last
          · simp [hgap, longestOf]
          · simp [hgap, longestOf]

/-- C7: the persisted `longestStreak` is monotonic across every sequence of
`updateUserStreak` / `resetUserStreak` operations on one (user, activityType)
streak row: updates only ever raise it (when `currentStreak` exceeds it) and
resets touch only `currentStreak`. -/
theorem longestStreak_monotonic (ops : List StreakOp) (row : Option StreakRow) :
    longestOf row ≤ longestOf (ops.foldl applyStreakOp row) := by
  induction ops generalizing row with
  | nil => exact le_refl _
  | cons op ops ih =>
    exact le_trans (applyStreakOp_longest_le row op) (ih (applyStreakOp row op))

/-- C10: same-day duplicate reports are idempotent — if a completed
`updateUserStreak` just produced row `r` (so `r.lastActivityDate` is the
reported date and `r.currentStreak ≤ r.longestStreak`), repeating the call
with the same date and `completed = true` leaves the row unchanged: the
`daysDiff === 0` branch keeps the streak count and only re-writes the date. -/
theorem updateUserStreak_same_day_idempotent (row0 : Option StreakRow) (date : ℤ)
    (r : StreakRow) (h : (updateUserStreakState row0 date true).1 = some r) :
    (updateUserStreakState (some r) date true).1 = some r := by
  have hshape : r.lastActivityDate = some date ∧ r.currentStreak ≤ r.longestStreak := by
    cases row0 with
    | none =>
      simp only [updateUserStreakState, if_true] at h
      rw [← Option.some.inj h]
      refine ⟨rfl, ?_⟩
      dsimp only
      exact nat_le_ite_max _ _
    | some s =>
      simp only [updateUserStreakState, if_true] at h
      rw [← Option.some.inj h]
      refine ⟨rfl, ?_⟩
      dsimp only
      exact nat_le_ite_max _ _
  obtain ⟨c, l, last⟩ := r
  obtain ⟨hdate, hle⟩ := hshape
  simp only at hdate hle
  subst hdate
  have hnl : ¬ (l < c) := by omega
  simp [updateUserStreakState, sub_self, hnl]

/-! ### The service envelopes and their `try/catch` (claim C9) -/

/-- The `{success, data?, error?}` envelope returned by all three streak
service functions (`message` of the reset success is irrelevant here). -/
structure StreakServiceResult where
  success : Bool
  data : Option StreakData
  error : Option String
deriving DecidableEq, Repr

/-- `updateUserStreak` including its `try/catch`: the initial
`SELECT * FROM user_streaks` outcome is `query`; any query error is CAUGHT and
turned into the ordinary return value `{success: false, error: ...}` — it is
not rethrown to the caller. -/
def updateUserStreak (query : Except String (Option StreakRow)) (date : ℤ)
    (completed : Bool) : Except String StreakServiceResult :=
  match query with
  | .error _ =>
    .ok { success := false, data := none, error := some "Failed to update streak" }
  | .ok row =>
    .ok { success := true
          data := some (updateUserStreakState row date completed).2
          error := none }

/-- `getUserStreak` including its `try/catch` (missing row → zero data). -/
def getUserStreak (query : Except String (Option StreakRow)) :
    Except String StreakServiceResult :=
  match query with
  | .error _ =>
    .ok { success := false, data := none, error := some "Failed to get streak" }
  | .ok (some s) =>
    .ok { success := true
          data := some { currentStreak := s.currentStreak
                         longestStreak := s.longestStreak
                         lastActivityDate := s.lastActivityDate }
          error := none }
  | .ok none =>
    .ok { success := true
          data := some { currentStreak := 0, longestStreak := 0, lastActivityDate := none }
          error := none }

/-- `resetUserStreak` including its `try/catch`. -/
def resetUserStreak (query : Except String Unit) : Except String StreakServiceResult :=
  match query with
  | .error _ =>
    .ok { success := false, data := none, error := some "Failed to reset streak" }
  | .ok _ => .ok { success := true, data := none, error := none }

/-- C9 counterexample: a failing store query does NOT propagate out of the
streak operations — each returns normally (`.ok`) with a
`{success: false, error: ...}` envelope instead of an exception. -/
theorem streak_ops_swallow_query_failure :
    updateUserStreak (.error "connection terminated") 5 true =
      .ok { success := false, data := none, error := some "Failed to update streak" } ∧
    getUserStreak (.error "connection terminated") =
      .ok { success := false, data := none, error := some "Failed to get streak" } ∧
    resetUserStreak (.error "connection terminated") =
      .ok { success := false, data := none, error := some "Failed to reset streak" } :=
  ⟨rfl, rfl, rfl⟩

/-- C9 (amended): for EVERY query failure, the three streak operations catch
it and return a normal `{success: false, error}` result — never a propagated
error, never a silent success. -/
theorem streak_ops_catch_query_failures (e : String) (date : ℤ) (completed : Bool) :
    updateUserStreak (.error e) date completed =
      .ok { success := false, data := none, error := some "Failed to update streak" } ∧
    getUserStreak (.error e) =
      .ok { success := false, data := none, error := some "Failed to get streak" } ∧
    resetUserStreak (.error e) =
      .ok { success := false, data := none, error := some "Failed to reset streak" } :=
  ⟨rfl, rfl, rfl⟩

/-! ## InsightRanker (`sortInsightsBySeverity`, lines 2722-2737, and
`prioritizeRecommendations`, lines 2744-2763)

`Array.prototype.sort` is stable per ECMAScript; since the comparators below
are consistent total preorders, any stable sort yields the same list, so the
sorts are modelled by `List.insertionSort` (which is stable). -/

inductive Severity where
  | critical
  | warning
  | info
  | positive
deriving DecidableEq, Repr

/-- `severityOrder = {critical: 0, warning: 1, info: 2, positive: 3}`. -/
def severityOrder : Severity → ℕ
  | .critical => 0
  | .warning => 1
  | .info => 2
  | .positive => 3

inductive PriorityLevel where
  | high
  | medium
  | low
deriving DecidableEq, Repr

/-- `priorityOrder = {high: 0, medium: 1, low: 2}`. -/
def priorityOrder : PriorityLevel → ℕ
  | .high => 0
  | .medium => 1
  | .low => 2

/-- `impactOrder = {high: 0, medium: 1, low: 2}`. -/
def impactOrder : PriorityLevel → ℕ
  | .high => 0
  | .medium => 1
  | .low => 2

structure Insight where
  type : String
  category : String
  message : String
  severity : Severity
  actionable : Bool
  icon : String
  timestamp : ℤ
deriving DecidableEq, Repr

structure Recommendation where
  type : String
  category : String
  message : String
  actionable : Bool
  priority : PriorityLevel
  estimatedImpact : PriorityLevel
  icon : String
deriving DecidableEq, Repr

/-- The `sortInsightsBySeverity` comparator: severity rank difference, then
actionable-first, then newest timestamp first. -/
def insightCompare (a b : Insight) : ℤ :=
  let severityDiff := (severityOrder a.severity : ℤ) - severityOrder b.severity
  if severityDiff ≠ 0 then severityDiff
  else if a.actionable && !b.actionable then -1
  else if !a.actionable && b.actionable then 1
  else b.timestamp - a.timestamp

/-- The `prioritizeRecommendations` comparator: priority rank difference, then
impact rank difference, then actionable-first, else 0. -/
def recCompare (a b : Recommendation) : ℤ :=
  let priorityDiff := (priorityOrder a.priority : ℤ) - priorityOrder b.priority
  if priorityDiff ≠ 0 then priorityDiff
  else
    let impactDiff := (impactOrder a.estimatedImpact : ℤ) - impactOrder b.estimatedImpact
    if impactDiff ≠ 0 then impactDiff
    else if a.actionable && !b.actionable then -1
    else if !a.actionable && b.actionable then 1
    else 0

/-- "`a` sorts no later than `b`": comparator result `<= 0`. -/
def insightLE (a b : Insight) : Prop := insightCompare a b ≤ 0

instance : DecidableRel insightLE := fun a b => by
  unfold insightLE
  infer_instance

def recLE (a b : Recommendation) : Prop := recCompare a b ≤ 0

instance : DecidableRel recLE := fun a b => by
  unfold recLE
  infer_instance

def sortInsightsBySeverity (insights : List Insight) : List Insight :=
  List.insertionSort insightLE insights

def prioritizeRecommendations (recommendations : List Recommendation) :
    List Recommendation :=
  List.insertionSort recLE recommendations

/-- The composite sort key of an insight (severity rank, actionable rank,
negated timestamp), lexicographically. -/
def insightKey (a : Insight) : ℤ × ℤ × ℤ :=
  ((severityOrder a.severity : ℤ), if a.actionable then 0 else 1, -a.timestamp)

/-- The composite sort key of a recommendation. -/
def recKey (a : Recommendation) : ℤ × ℤ × ℤ :=
  ((priorityOrder a.priority : ℤ), (impactOrder a.estimatedImpact : ℤ),
    if a.actionable then 0 else 1)

/-- Lexicographic order on key triples. -/
def lex3LE (x y : ℤ × ℤ × ℤ) : Prop :=
  x.1 < y.1 ∨ (x.1 = y.1 ∧ (x.2.1 < y.2.1 ∨ (x.2.1 = y.2.1 ∧ x.2.2 ≤ y.2.2)))

instance : DecidableRel lex3LE := fun x y => by
  unfold lex3LE
  infer_instance

theorem lex3LE_refl (x : ℤ × ℤ × ℤ) : lex3LE x x := by
  unfold lex3LE
  omega

theorem lex3LE_total (x y : ℤ × ℤ × ℤ) : lex3LE x y ∨ lex3LE y x := by
  unfold lex3LE
  omega

theorem lex3LE_trans (x y z : ℤ × ℤ × ℤ) (h1 : lex3LE x y) (h2 : lex3LE y z) :
    lex3LE x z := by
  unfold lex3LE at *
  omega

theorem insightLE_iff_lex (a b : Insight) :
    insightLE a b ↔ lex3LE (insightKey a) (insightKey b) := by
  unfold insightLE insightCompare insightKey lex3LE
  cases a.actionable <;> cases b.actionable <;> simp <;> omega

theorem recLE_iff_lex (a b : Recommendation) :
    recLE a b ↔ lex3LE (recKey a) (recKey b) := by
  unfold recLE recCompare recKey lex3LE
  cases a.actionable <;> cases b.actionable <;> simp <;> omega

instance : IsTotal Insight insightLE :=
  ⟨fun a b => by
    rw [insightLE_iff_lex, insightLE_iff_lex]
    exact lex3LE_total _ _⟩

instance : IsTrans Insight insightLE :=
  ⟨fun a b c h1 h2 =>
    (insightLE_iff_lex a c).mpr
      (lex3LE_trans _ _ _ ((insightLE_iff_lex a b).mp h1) ((insightLE_iff_lex b c).mp h2))⟩

instance : IsTotal Recommendation recLE :=
  ⟨fun a b => by
    rw [recLE_iff_lex, recLE_iff_lex]
    exact lex3LE_total _ _⟩

instance : IsTrans Recommendation recLE :=
  ⟨fun a b c h1 h2 =>
    (recLE_iff_lex a c).mpr
      (lex3LE_trans _ _ _ ((recLE_iff_lex a b).mp h1) ((recLE_iff_lex b c).mp h2))⟩

/-- Inserting an element of key class `k` leaves that key class's subsequence
prefixed by it, provided equal keys always satisfy the sort relation. -/
theorem orderedInsert_filter_of_key_eq {α κ : Type} [DecidableEq κ] (key : α → κ)
    (le : α → α → Prop) [DecidableRel le]
    (hrefl : ∀ a b, key a = key b → le a b) (x : α) (k : κ) (hx : key x = k) :
    ∀ l : List α,
      (l.orderedInsert le x).filter (fun a => decide (key a = k)) =
        x :: l.filter (fun a => decide (key a = k)) := by
  intro l
  induction l with
  | nil => simp [List.orderedInsert, hx]
  | cons b l ih =>
    rw [List.orderedInsert]
    by_cases hle : le x b
    · rw [if_pos hle, List.filter_cons, List.filter_cons]
      simp [hx]
    · rw [if_neg hle]
      have hkb : key b ≠ k := fun hkb => hle (hrefl x b (by rw [hx, hkb]))
      simp only [List.filter_cons, decide_eq_false hkb, Bool.false_eq_true, if_false]
      exact ih

/-- Inserting an element of a different key class does not disturb the class's
subsequence. -/
theorem orderedInsert_filter_of_key_ne {α κ : Type} [DecidableEq κ] (key : α → κ)
    (le : α → α → Prop) [DecidableRel le] (x : α) (k : κ) (hx : key x ≠ k) :
    ∀ l : List α,
      (l.orderedInsert le x).filter (fun a => decide (key a = k)) =
        l.filter (fun a => decide (key a = k)) := by
  intro l
  induction l with
  | nil => simp [List.orderedInsert, hx]
  | cons b l ih =>
    rw [List.orderedInsert]
    by_cases hle : le x b
    · rw [if_pos hle, List.filter_cons, List.filter_cons]
      simp [hx]
    · rw [if_neg hle, List.filter_cons, List.filter_cons]
      rw [ih]

/-- Stability of the modelled sort, phrased per key class: sorting does not
reorder elements whose keys are all equal. -/
theorem insertionSort_filter_key {α κ : Type} [DecidableEq κ] (key : α → κ)
    (le : α → α → Prop) [DecidableRel le]
    (hrefl : ∀ a b, key a = key b → le a b) :
    ∀ (l : List α) (k : κ),
      (List.insertionSort le l).filter (fun a => decide (key a = k)) =
        l.filter (fun a => decide (key a = k)) := by
  intro l
  induction l with
  | nil => intro k; rfl
  | cons a l ih =>
    intro k
    rw [List.insertionSort, List.filter_cons]
    by_cases hk : key a = k
    · rw [orderedInsert_filter_of_key_eq key le hrefl a k hk, ih]
      simp [hk]
    · rw [orderedInsert_filter_of_key_ne key le a k hk, ih]
      simp [hk]

/-- C8: both rankers are stable total orderings over their composite keys —
elements tied on every key keep their input relative order — the orderings are
total, outputs are sorted, and both sorts are idempotent (re-sorting an
already-sorted list returns the same order). -/
theorem rankers_stable_total_idempotent (ins : List Insight)
    (recs : List Recommendation) (ki kr : ℤ × ℤ × ℤ)
    (a b : Insight) (c d : Recommendation) :
    (sortInsightsBySeverity ins).filter (fun x => decide (insightKey x = ki)) =
      ins.filter (fun x => decide (insightKey x = ki)) ∧
    (prioritizeRecommendations recs).filter (fun x => decide (recKey x = kr)) =
      recs.filter (fun x => decide (recKey x = kr)) ∧
    (insightLE a b ∨ insightLE b a) ∧
    (recLE c d ∨ recLE d c) ∧
    List.Sorted insightLE (sortInsightsBySeverity ins) ∧
    List.Sorted recLE (prioritizeRecommendations recs) ∧
    sortInsightsBySeverity (sortInsightsBySeverity ins) = sortInsightsBySeverity ins ∧
    prioritizeRecommendations (prioritizeRecommendations recs) =
      prioritizeRecommendations recs := by
  have hirefl : ∀ a b : Insight, insightKey a = insightKey b → insightLE a b :=
    fun a b h => (insightLE_iff_lex a b).mpr (h ▸ lex3LE_refl _)
  have hrrefl : ∀ a b : Recommendation, recKey a = recKey b → recLE a b :=
    fun a b h => (recLE_iff_lex a b).mpr (h ▸ lex3LE_refl _)
  refine ⟨?_, ?_, ?_, ?_, ?_, ?_, ?_, ?_⟩
  · exact insertionSort_filter_key insightKey insightLE hirefl ins ki
  · exact insertionSort_filter_key recKey recLE hrrefl recs kr
  · exact IsTotal.total a b
  · exact IsTotal.total c d
  · exact List.sorted_insertionSort insightLE ins
  · exact List.sorted_insertionSort recLE recs
  · exact (List.sorted_insertionSort insightLE ins).insertionSort_eq
  · exact (List.sorted_insertionSort recLE recs).insertionSort_eq

/-- Witness for C10: an update on date 10 after one on date 9 produces row
`⟨2, 5, some 10⟩`; repeating date 10 leaves it unchanged. -/
theorem updateUserStreak_same_day_idempotent_witness :
    (updateUserStreakState (some ⟨1, 5, some 9⟩) 10 true).1 = some ⟨2, 5, some 10⟩ ∧
    (updateUserStreakState (some ⟨2, 5, some 10⟩) 10 true).1 = some ⟨2, 5, some 10⟩ :=
  ⟨rfl, updateUserStreak_same_day_idempotent (some ⟨1, 5, some 9⟩) 10 ⟨2, 5, some 10⟩ rfl⟩

/-! ## Cross-domain insight stage (`generateCrossDomainInsights` lines 582-636,
`analyzeHealthStudyCorrelation` lines 2553-2602,
`analyzeOverallWellnessProductivity` lines 2610-2650,
`calculateOverallHealthScore` lines 2657-2687,
`calculateOverallProductivityScore` lines 2694-2715) together with the
aggregate records it consumes (`aggregateHealthData` lines 12-62,
`calculateEducationProgress` lines 401-431).

The aggregate records carry the fields these functions read; fields irrelevant
to every claim (weekly breakdowns, previous-period comparisons, raw `daily`
arrays, goal progress) are omitted. -/

structure WaterAgg where
  average : ℚ
  total : ℚ
  trend : Trend
  trendPercentage : ℤ
  daysTracked : ℕ
deriving DecidableEq, Repr

structure ExerciseAgg where
  totalSteps : ℚ
  averageSteps : ℚ
  trend : Trend
  trendPercentage : ℤ
  daysTracked : ℕ
deriving DecidableEq, Repr

structure ConstipationAgg where
  positiveCount : ℕ
  negativeCount : ℕ
  positiveRate : ℚ
  trend : Trend
  trendPercentage : ℤ
  daysTracked : ℕ
deriving DecidableEq, Repr

structure KriyaAgg where
  totalSessions : ℕ
  daysTracked : ℕ
  consistencyRate : ℚ
deriving DecidableEq, Repr

structure TypingAgg where
  completedCount : ℕ
  totalDays : ℕ
  completionRate : ℚ
  trend : Trend
  trendPercentage : ℤ
deriving DecidableEq, Repr

structure StudyHoursAgg where
  totalHours : ℚ
  averageHours : ℚ
  trend : Trend
  trendPercentage : ℤ
deriving DecidableEq, Repr

structure TaskCompletionAgg where
  overallCompletionRate : ℚ
deriving DecidableEq, Repr

/-- Per-subject row as read by `calculateOverallProductivityScore`
(`s.taskCompletionRate`; note the rows `getSubjectProgress` actually builds
carry `completionRate` instead, but no claim exercises a non-empty list). -/
structure SubjectProgressEntry where
  taskCompletionRate : ℚ
deriving DecidableEq, Repr

/-- The health-analytics object built by `aggregateHealthData`. Besides the
metric sub-objects (present according to the requested metrics) the object
always carries `timeRange`, `startDate`, `endDate` and `summary` keys. -/
structure HealthData where
  waterIntake : Option WaterAgg
  exercise : Option ExerciseAgg
  periodTracking : Option ℕ
  constipation : Option ConstipationAgg
  kriya : Option KriyaAgg
  typing : Option TypingAgg
deriving DecidableEq, Repr

/-- The education-analytics object built by `calculateEducationProgress`; all
of its sub-objects are assigned unconditionally (`Option` kept for the
truthiness tests in the cross-domain stage). It always carries 9 keys:
`timeRange`, `startDate`, `endDate`, `subjectProgress`, `studyHours`,
`taskCompletion`, `unitProgress`, `studyPatterns`, `summary`. -/
structure EducationData where
  subjectProgress : List SubjectProgressEntry
  studyHours : Option StudyHoursAgg
  taskCompletion : Option TaskCompletionAgg
deriving DecidableEq, Repr

/-- `Object.keys(healthData).length` for an `aggregateHealthData` result:
the 4 metadata keys plus one per present metric sub-object. -/
def healthKeyCount (h : HealthData) : ℕ :=
  4 + (if h.waterIntake.isSome then 1 else 0) + (if h.exercise.isSome then 1 else 0) +
    (if h.periodTracking.isSome then 1 else 0) + (if h.constipation.isSome then 1 else 0) +
    (if h.kriya.isSome then 1 else 0) + (if h.typing.isSome then 1 else 0)

/-- `Object.keys(educationData).length` for a `calculateEducationProgress`
result: always its 9 unconditionally-assigned keys. -/
def eduKeyCount (_ : EducationData) : ℕ := 9

/-- `calculateOverallHealthScore`: mean over the present metrics of the
per-metric 0-100 scores (water `average/2000`, exercise `averageSteps/8000`,
both capped at 100; the three rates as-is); 0 when no metric is present. -/
def calculateOverallHealthScore (h : HealthData) : ℤ :=
  let acc1 : ℚ × ℕ :=
    match h.waterIntake with
    | some w => (min (w.average / 2000 * 100) 100, 1)
    | none => (0, 0)
  let acc2 : ℚ × ℕ :=
    match h.exercise with
    | some ex => (acc1.1 + min (ex.averageSteps / 8000 * 100) 100, acc1.2 + 1)
    | none => acc1
  let acc3 : ℚ × ℕ :=
    match h.constipation with
    | some c => (acc2.1 + c.positiveRate, acc2.2 + 1)
    | none => acc2
  let acc4 : ℚ × ℕ :=
    match h.kriya with
    | some k => (acc3.1 + k.consistencyRate, acc3.2 + 1)
    | none => acc3
  let acc5 : ℚ × ℕ :=
    match h.typing with
    | some t => (acc4.1 + t.completionRate, acc4.2 + 1)
    | none => acc4
  if 0 < acc5.2 then jsRound (acc5.1 / acc5.2) else 0

/-- `calculateOverallProductivityScore`: mean over study hours
(`averageHours/4` capped at 100), the overall task completion rate, and the
mean per-subject rate (only when the subject list is non-empty). -/
def calculateOverallProductivityScore (e : EducationData) : ℤ :=
  let acc1 : ℚ × ℕ :=
    match e.studyHours with
    | some s => (min (s.averageHours / 4 * 100) 100, 1)
    | none => (0, 0)
  let acc2 : ℚ × ℕ :=
    match e.taskCompletion with
    | some t => (acc1.1 + t.overallCompletionRate, acc1.2 + 1)
    | none => acc1
  let acc3 : ℚ × ℕ :=
    if 0 < e.subjectProgress.length then
      (acc2.1 + (e.subjectProgress.map (·.taskCompletionRate)).sum / e.subjectProgress.length,
       acc2.2 + 1)
    else acc2
  if 0 < acc3.2 then jsRound (acc3.1 / acc3.2) else 0

/-- `{insight, recommendation?}` pair returned by the correlation analyzers. -/
structure CorrelationResult where
  insight : Insight
  recommendation : Option Recommendation
deriving DecidableEq, Repr

/-- `analyzeHealthStudyCorrelation` reads only the two `trend` fields (plus
the type names for the message texts): both increasing → positive insight +
medium recommendation; both decreasing → warning + high-priority
recommendation; anything else → `null`. -/
def analyzeHealthStudyCorrelation (healthTrend studyTrend : Trend)
    (healthType studyType : String) (now : ℤ) : Option CorrelationResult :=
  if healthTrend = .increasing ∧ studyTrend = .increasing then
    some
      { insight :=
          { type := "correlation"
            category := "health_study"
            message := "Your improving " ++ healthType ++
              " appears to correlate with better " ++ studyType
            severity := .positive
            actionable := false
            icon := "🔗"
            timestamp := now }
        recommendation := some
          { type := "correlation"
            category := "health_study"
            message := "Continue maintaining good " ++ healthType ++
              " habits to support your academic performance"
            actionable := true
            priority := .medium
            estimatedImpact := .medium
            icon := "💪" } }
  else if healthTrend = .decreasing ∧ studyTrend = .decreasing then
    some
      { insight :=
          { type := "correlation"
            category := "health_study"
            message := "Declining " ++ healthType ++ " may be impacting your " ++ studyType
            severity := .warning
            actionable := true
            icon := "⚠️"
            timestamp := now }
        recommendation := some
          { type := "correlation"
            category := "health_study"
            message := "Focus on improving " ++ healthType ++
              " habits to potentially boost academic performance"
            actionable := true
            priority := .high
            estimatedImpact := .high
            icon := "🎯" } }
  else none

/-- `analyzeOverallWellnessProductivity`: composite scores at the 70/50
thresholds; any other combination → `null`. -/
def analyzeOverallWellnessProductivity (h : HealthData) (e : EducationData)
    (now : ℤ) : Option CorrelationResult :=
  let healthScore := calculateOverallHealthScore h
  let productivityScore := calculateOverallProductivityScore e
  if 70 ≤ healthScore ∧ 70 ≤ productivityScore then
    some
      { insight :=
          { type := "correlation"
            category := "overall_wellness"
            message := "Your strong health habits are supporting excellent academic performance"
            severity := .positive
            actionable := false
            icon := "🌟"
            timestamp := now }
        recommendation := none }
  else if healthScore < 50 ∧ productivityScore < 50 then
    some
      { insight :=
          { type := "correlation"
            category := "overall_wellness"
            message := "Both health and academic metrics need attention - they often influence each other"
            severity := .warning
            actionable := true
            icon := "⚠️"
            timestamp := now }
        recommendation := some
          { type := "correlation"
            category := "overall_wellness"
            message := "Focus on improving one area at a time - start with health habits to build momentum"
            actionable := true
            priority := .high
            estimatedImpact := .high
            icon := "🎯" } }
  else none

/-- Push a correlation analyzer result onto the accumulated lists
(`insights.push(...)`, and the recommendation only when present). -/
def pushCorrelation (acc : List Insight × List Recommendation)
    (r : Option CorrelationResult) : List Insight × List Recommendation :=
  match r with
  | none => acc
  | some cr =>
    (acc.1 ++ [cr.insight],
     match cr.recommendation with
     | some rec => acc.2 ++ [rec]
     | none => acc.2)

/-- `generateCrossDomainInsights(userId, healthData, educationData)`:
short-circuit on `Object.keys(...).length` emptiness, then water×study and
exercise×study correlations, then the overall wellness-productivity stage. -/
def generateCrossDomainInsights (h : HealthData) (e : EducationData) (now : ℤ) :
    List Insight × List Recommendation :=
  if 0 < healthKeyCount h ∧ 0 < eduKeyCount e then
    let acc1 := pushCorrelation ([], [])
      (match h.waterIntake, e.studyHours with
       | some w, some s =>
         analyzeHealthStudyCorrelation w.trend s.trend "water_intake" "study_performance" now
       | _, _ => none)
    let acc2 := pushCorrelation acc1
      (match h.exercise, e.studyHours with
       | some ex, some s =>
         analyzeHealthStudyCorrelation ex.trend s.trend "exercise" "study_consistency" now
       | _, _ => none)
    pushCorrelation acc2 (analyzeOverallWellnessProductivity h e now)
  else ([], [])

/-! ### The aggregates a cold-start user receives (every store query empty) -/

/-- Field computations of `getWaterIntakeAnalytics` from the queried rows. -/
def getWaterIntakeAnalyticsCore (rows : List ℚ) : WaterAgg :=
  let totalAmount := rows.sum
  let trendData := calculateTrend rows
  { average := if 0 < rows.length then (jsRound (totalAmount / rows.length) : ℚ) else 0
    total := totalAmount
    trend := trendData.trend
    trendPercentage := trendData.percentage
    daysTracked := rows.length }

/-- Field computations of `getExerciseAnalytics` (footsteps per row). -/
def getExerciseAnalyticsCore (rows : List ℚ) : ExerciseAgg :=
  let totalSteps := rows.sum
  let trendData := calculateTrend rows
  { totalSteps := totalSteps
    averageSteps := if 0 < rows.length then (jsRound (totalSteps / rows.length) : ℚ) else 0
    trend := trendData.trend
    trendPercentage := trendData.percentage
    daysTracked := rows.length }

/-- Field computations of `getConstipationAnalytics` (status per row). -/
def getConstipationAnalyticsCore (rows : List Bool) : ConstipationAgg :=
  let positiveCount := (rows.filter (· = true)).length
  let negativeCount := (rows.filter (· = false)).length
  let trendData := calculateTrend (rows.map (fun s => if s then 1 else 0))
  { positiveCount := positiveCount
    negativeCount := negativeCount
    positiveRate :=
      if 0 < rows.length then (jsRound ((positiveCount : ℚ) / rows.length * 100) : ℚ) else 0
    trend := trendData.trend
    trendPercentage := trendData.percentage
    daysTracked := rows.length }

/-- `calculateConsistencyRate(userId, tableName, startDate)` from the distinct
active-day count and the window length. -/
def calculateConsistencyRate (activeDays : ℕ) (daysDiff : ℕ) : ℤ :=
  if 0 < daysDiff then jsRound ((activeDays : ℚ) / daysDiff * 100) else 0

/-- Field computations of `getKriyaAnalytics` (one row per session). -/
def getKriyaAnalyticsCore (sessions : ℕ) (activeDays daysDiff : ℕ) : KriyaAgg :=
  { totalSessions := sessions
    daysTracked := sessions
    consistencyRate := (calculateConsistencyRate activeDays daysDiff : ℚ) }

/-- Field computations of `getTypingAnalytics` (completed flag per row). -/
def getTypingAnalyticsCore (rows : List Bool) : TypingAgg :=
  let completedCount := (rows.filter (· = true)).length
  let trendData := calculateTrend (rows.map (fun c => if c then 1 else 0))
  { completedCount := completedCount
    totalDays := rows.length
    completionRate :=
      if 0 < rows.length then (jsRound ((completedCount : ℚ) / rows.length * 100) : ℚ) else 0
    trend := trendData.trend
    trendPercentage := trendData.percentage }

/-- JS `toFixed(2)` then `parseFloat`, for nonnegative inputs. -/
def jsToFixed2 (q : ℚ) : ℚ := (jsRound (q * 100) : ℚ) / 100

/-- Field computations of `getStudyHoursAnalytics` (hours per row). -/
def getStudyHoursAnalyticsCore (rows : List ℚ) : StudyHoursAgg :=
  let totalHours := rows.sum
  let trendData := calculateTrend rows
  { totalHours := totalHours
    averageHours := if 0 < rows.length then jsToFixed2 (totalHours / rows.length) else 0
    trend := trendData.trend
    trendPercentage := trendData.percentage }

/-- Field computation of `getTaskCompletionAnalytics` (task counts). -/
def getTaskCompletionAnalyticsCore (totalTasks completedTasks : ℕ) : TaskCompletionAgg :=
  { overallCompletionRate :=
      if 0 < totalTasks then (jsRound ((completedTasks : ℚ) / totalTasks * 100) : ℚ) else 0 }

/-- `aggregateHealthData(userId, '30', 'all')` for a user with no recorded
health rows: every metric sub-object is present (metrics `all`) and all-zero. -/
def coldStartHealthData : HealthData :=
  { waterIntake := some (getWaterIntakeAnalyticsCore [])
    exercise := some (getExerciseAnalyticsCore [])
    periodTracking := some 0
    constipation := some (getConstipationAnalyticsCore [])
    kriya := some (getKriyaAnalyticsCore 0 0 30)
    typing := some (getTypingAnalyticsCore []) }

/-- `calculateEducationProgress(userId, '30', 'all')` for a user with no
recorded education rows. -/
def coldStartEducationData : EducationData :=
  { subjectProgress := []
    studyHours := some (getStudyHoursAnalyticsCore [])
    taskCompletion := some (getTaskCompletionAnalyticsCore 0 0) }

/-- C6: for a user with NO recorded health or education data, the cross-domain
stage of `generateInsights` does NOT return empty lists: the
`Object.keys(...).length > 0` guards always pass (the aggregates carry
metadata keys), the all-zero composite scores satisfy `healthScore < 50 &&
productivityScore < 50`, and the overall-wellness analyzer fabricates a
warning insight plus a high-priority recommendation. -/
theorem generateCrossDomainInsights_cold_start_not_empty (now : ℤ) :
    generateCrossDomainInsights coldStartHealthData coldStartEducationData now =
      ([{ type := "correlation"
          category := "overall_wellness"
          message := "Both health and academic metrics need attention - they often influence each other"
          severity := .warning
          actionable := true
          icon := "⚠️"
          timestamp := now }],
       [{ type := "correlation"
          category := "overall_wellness"
          message := "Focus on improving one area at a time - start with health habits to build momentum"
          actionable := true
          priority := .high
          estimatedImpact := .high
          icon := "🎯" }]) ∧
    (generateCrossDomainInsights coldStartHealthData coldStartEducationData now).1 ≠ [] := by
  have hjs0 : jsRound 0 = 0 := jsRound_eq_of (by norm_num) (by norm_num)
  have hhs : calculateOverallHealthScore coldStartHealthData = 0 := by
    norm_num [calculateOverallHealthScore, coldStartHealthData,
      getWaterIntakeAnalyticsCore, getExerciseAnalyticsCore, getConstipationAnalyticsCore,
      getKriyaAnalyticsCore, getTypingAnalyticsCore, calculateConsistencyRate,
      calculateTrend, hjs0]
  have hps : calculateOverallProductivityScore coldStartEducationData = 0 := by
    norm_num [calculateOverallProductivityScore, coldStartEducationData,
      getStudyHoursAnalyticsCore, getTaskCompletionAnalyticsCore, jsToFixed2,
      calculateTrend, hjs0]
  have hmain : generateCrossDomainInsights coldStartHealthData coldStartEducationData now =
      ([{ type := "correlation"
          category := "overall_wellness"
          message := "Both health and academic metrics need attention - they often influence each other"
          severity := .warning
          actionable := true
          icon := "⚠️"
          timestamp := now }],
       [{ type := "correlation"
          category := "overall_wellness"
          message := "Focus on improving one area at a time - start with health habits to build momentum"
          actionable := true
          priority := .high
          estimatedImpact := .high
          icon := "🎯" }]) := by
    have hwell : analyzeOverallWellnessProductivity coldStartHealthData
        coldStartEducationData now = some
        { insight :=
            { type := "correlation"
              category := "overall_wellness"
              message := "Both health and academic metrics need attention - they often influence each other"
              severity := .warning
              actionable := true
              icon := "⚠️"
              timestamp := now }
          recommendation := some
            { type := "correlation"
              category := "overall_wellness"
              message := "Focus on improving one area at a time - start with health habits to build momentum"
              actionable := true
              priority := .high
              estimatedImpact := .high
              icon := "🎯" } } := by
      simp only [analyzeOverallWellnessProductivity, hhs, hps]
      norm_num
    have hguard : 0 < healthKeyCount coldStartHealthData ∧
        0 < eduKeyCount coldStartEducationData := by
      constructor <;> norm_num [healthKeyCount, eduKeyCount, coldStartHealthData]
    have hcorr : ∀ ht st : String,
        analyzeHealthStudyCorrelation .insufficientData .insufficientData ht st now = none :=
      fun _ _ => rfl
    rw [generateCrossDomainInsights, if_pos hguard]
    simp only [show coldStartHealthData.waterIntake = some (getWaterIntakeAnalyticsCore [])
        from rfl,
      show coldStartHealthData.exercise = some (getExerciseAnalyticsCore []) from rfl,
      show coldStartEducationData.studyHours = some (getStudyHoursAnalyticsCore []) from rfl,
      show (getWaterIntakeAnalyticsCore []).trend = Trend.insufficientData from rfl,
      show (getExerciseAnalyticsCore []).trend = Trend.insufficientData from rfl,
      show (getStudyHoursAnalyticsCore []).trend = Trend.insufficientData from rfl,
      hcorr, hwell, pushCorrelation]
    simp
  exact ⟨hmain, by rw [hmain]; simp⟩

end HerSphere
